import Mathlib

/-!
# golangbot/mysqltutorial: batch insert builder and storage access paths

A shallow embedding of `src/insert/main.go` and `src/select/main.go`.

* Go `string` is `String`, Go `int` is `Int` (no arithmetic is performed on prices,
  so the machine width never matters), `[]interface{}` is `List Param`.
* The database driver is an external collaborator.  It is represented by a record of
  outcome functions (`Driver`): the embedded functions ask it for the outcome of each
  storage step exactly where the Go code performs that step.
* The logger and the database connection are global state in Go.  They are threaded
  explicitly as a `World`: the log lines written so far and the storage steps executed
  so far, both in chronological order.
* A log line is kept as the format string and the arguments of the call; the rendered
  text and the timestamp the standard logger puts in front of it are not modelled.
* `db.Close()` and the deferred `stmt.Close()` are recorded as steps with outcome `none`:
  the code discards what they return.
* Not modelled: the five-second `context.WithTimeout` of each call with its deferred
  cancel function, and the pool settings `SetMaxOpenConns`, `SetMaxIdleConns`,
  `SetConnMaxLifetime` of `dbConnection`; none of them returns an error to the program.
-/

namespace MysqlTutorial

/-! ## Data model -/

/-- The Go struct `product` (name text, price integer). -/
structure product where
  name : String
  price : Int
deriving DecidableEq, Repr

/-- Go `error` values.  `ErrNoRows` is the sentinel `sql.ErrNoRows`; every other error
value is identified by its message. -/
inductive Err where
  | ErrNoRows
  | other (msg : String)
deriving DecidableEq, Repr

/-- One element of a Go `[]interface{}` argument list: a text or an integer value. -/
inductive Param where
  | str (s : String)
  | int (n : Int)
deriving DecidableEq, Repr

/-! ## The batch statement builder (`multipleInsert`, lines 125-133) -/

/-- Go `strings.Join(elems, sep)`: empty for no element, otherwise the first element
followed by `sep` and the next element for each remaining one. -/
def stringsJoin (elems : List String) (sep : String) : String :=
  match elems with
  | [] => ""
  | e :: rest => rest.foldl (fun b s => b ++ sep ++ s) e

/-- The body of the `for _, v := range products` loop of `multipleInsert`:
one `append` to `inserts` and one two-value `append` to `params`. -/
def multipleInsertLoop (acc : List String × List Param) (v : product) :
    List String × List Param :=
  (acc.1 ++ ["(?, ?)"], acc.2 ++ [Param.str v.name, Param.int v.price])

/-- Lines 125-133 of `multipleInsert`: the statement text and the parameter slice
that the function goes on to prepare and execute. -/
def multipleInsertQuery (products : List product) : String × List Param :=
  let query := "INSERT INTO product(product_name, product_price) VALUES "
  let acc := products.foldl multipleInsertLoop ([], [])
  let queryVals := stringsJoin acc.1 ","
  (query ++ queryVals, acc.2)

/-! ## The storage collaborator and the world -/

/-- The value `db.ExecContext` / `stmt.ExecContext` return on success: the outcomes of
`res.RowsAffected()` and `res.LastInsertId()`. -/
structure ExecResult where
  rowsAffected : Except Err Int
  lastInsertId : Except Err Int

/-- The cursor `stmt.QueryContext` returns on success: the outcome of `rows.Scan` for
each row `rows.Next()` yields, and what `rows.Err()` reports once `rows.Next()` has
returned false. -/
structure Rows where
  scans : List (Except Err product)
  err : Option Err

/-- The database driver: the outcome of every storage step the programs perform, as a
function of the arguments the program passes to it. -/
structure Driver where
  sqlOpen : String → Option Err
  dbExec : String → Except Err ExecResult
  ping : String → Option Err
  prepare : String → Option Err
  stmtExec : String → List Param → Except Err ExecResult
  rowScan : String → List Param → Except Err Int
  stmtQuery : String → List Param → Except Err Rows

/-- A storage step, with the arguments the program passed. -/
inductive Step where
  | sqlOpen (dsn : String)
  | dbExec (query : String)
  | rowsAffected
  | lastInsertId
  | dbClose
  | ping
  | prepare (query : String)
  | stmtExec (query : String) (args : List Param)
  | stmtClose
  | rowScan (query : String) (args : List Param)
  | stmtQuery (query : String) (args : List Param)
  | rowsScan
  | rowsErr
deriving DecidableEq, Repr

/-- An argument of a `log.Printf` / `log.Println` call. -/
inductive LogArg where
  | err (e : Err)
  | int (n : Int)
  | str (s : String)
deriving DecidableEq, Repr

/-- One call of the standard logger: `log.Printf(format, args...)` or
`log.Println(args...)`. -/
inductive LogEntry where
  | printf (format : String) (args : List LogArg)
  | println (args : List LogArg)
deriving DecidableEq, Repr

/-- The global state the functions act on: the log lines written and the storage steps
executed (each with the error it reported, `none` on success), oldest first. -/
structure World where
  log : List LogEntry
  steps : List (Step × Option Err)
deriving DecidableEq, Repr

/-- Appends a `log.Printf` call to the world. -/
def World.printf (w : World) (format : String) (args : List LogArg) : World :=
  { w with log := w.log ++ [LogEntry.printf format args] }

/-- Appends a `log.Println` call to the world. -/
def World.println (w : World) (args : List LogArg) : World :=
  { w with log := w.log ++ [LogEntry.println args] }

/-- Records an executed storage step and the error it reported. -/
def World.step (w : World) (s : Step) (out : Option Err) : World :=
  { w with steps := w.steps ++ [(s, out)] }

/-- The world before anything ran. -/
def World.empty : World := { log := [], steps := [] }

/-! ## The storage-facing functions -/

def username : String := "root"
def password : String := "password"
def hostname : String := "127.0.0.1:3306"
def dbname : String := "ecommerce"

/-- Go `dsn`: `fmt.Sprintf("%s:%s@tcp(%s)/%s", username, password, hostname, dbName)`. -/
def dsn (dbName : String) : String :=
  username ++ ":" ++ password ++ "@tcp(" ++ hostname ++ ")/" ++ dbName

/-- Go `dbConnection`; the result is the returned `error` (`none` for nil, in which
case the returned handle is the one opened on `dsn(dbname)`). -/
def dbConnection (d : Driver) (w : World) : World × Option Err :=
  match d.sqlOpen (dsn "") with
  | some err =>
    ((w.step (.sqlOpen (dsn "")) (some err)).printf "Error %s when opening DB\n" [.err err],
      some err)
  | none =>
    let w := w.step (.sqlOpen (dsn "")) none
    match d.dbExec ("CREATE DATABASE IF NOT EXISTS " ++ dbname) with
    | .error err =>
      ((w.step (.dbExec ("CREATE DATABASE IF NOT EXISTS " ++ dbname)) (some err)).printf
        "Error %s when creating DB\n" [.err err], some err)
    | .ok res =>
      let w := w.step (.dbExec ("CREATE DATABASE IF NOT EXISTS " ++ dbname)) none
      match res.rowsAffected with
      | .error err =>
        ((w.step .rowsAffected (some err)).printf "Error %s when fetching rows" [.err err],
          some err)
      | .ok no =>
        let w := (w.step .rowsAffected none).printf "rows affected %d\n" [.int no]
        let w := w.step .dbClose none
        match d.sqlOpen (dsn dbname) with
        | some err =>
          ((w.step (.sqlOpen (dsn dbname)) (some err)).printf "Error %s when opening DB"
            [.err err], some err)
        | none =>
          let w := w.step (.sqlOpen (dsn dbname)) none
          match d.ping (dsn dbname) with
          | some err =>
            ((w.step .ping (some err)).printf "Errors %s pinging DB" [.err err], some err)
          | none =>
            ((w.step .ping none).printf "Connected to DB %s successfully\n" [.str dbname],
              none)

/-- The statement text of `createProductTable` (a raw string spanning two lines). -/
def createProductTableQuery : String :=
  "CREATE TABLE IF NOT EXISTS product(product_id int primary key auto_increment, product_name text, \n        product_price int, created_at datetime default CURRENT_TIMESTAMP, updated_at datetime default CURRENT_TIMESTAMP)"

/-- Go `createProductTable`. -/
def createProductTable (d : Driver) (w : World) : World × Option Err :=
  let query := createProductTableQuery
  match d.dbExec query with
  | .error err =>
    ((w.step (.dbExec query) (some err)).printf "Error %s when creating product table"
      [.err err], some err)
  | .ok res =>
    let w := w.step (.dbExec query) none
    match res.rowsAffected with
    | .error err =>
      ((w.step .rowsAffected (some err)).printf "Error %s when getting rows affected"
        [.err err], some err)
    | .ok rows =>
      ((w.step .rowsAffected none).printf "Rows affected when creating table: %d"
        [.int rows], none)

/-- Go `insert`.  The deferred `stmt.Close()` runs at every return that follows a
successful preparation. -/
def insert (d : Driver) (p : product) (w : World) : World × Option Err :=
  let query := "INSERT INTO product(product_name, product_price) VALUES (?, ?)"
  match d.prepare query with
  | some err =>
    ((w.step (.prepare query) (some err)).printf "Error %s when preparing SQL statement"
      [.err err], some err)
  | none =>
    let w := w.step (.prepare query) none
    match d.stmtExec query [.str p.name, .int p.price] with
    | .error err =>
      (((w.step (.stmtExec query [.str p.name, .int p.price]) (some err)).printf
        "Error %s when inserting row into products table" [.err err]).step .stmtClose none,
        some err)
    | .ok res =>
      let w := w.step (.stmtExec query [.str p.name, .int p.price]) none
      match res.rowsAffected with
      | .error err =>
        (((w.step .rowsAffected (some err)).printf "Error %s when finding rows affected"
          [.err err]).step .stmtClose none, some err)
      | .ok rows =>
        let w := (w.step .rowsAffected none).printf "%d products created " [.int rows]
        match res.lastInsertId with
        | .error err =>
          (((w.step .lastInsertId (some err)).printf
            "Error %s when getting last inserted product" [.err err]).step .stmtClose none,
            some err)
        | .ok prdID =>
          (((w.step .lastInsertId none).printf "Product with ID %d created"
            [.int prdID]).step .stmtClose none, none)

/-- Go `multipleInsert`: builds the statement and the parameters, logs the statement,
prepares it and executes it with the parameters. -/
def multipleInsert (d : Driver) (products : List product) (w : World) :
    World × Option Err :=
  let query := (multipleInsertQuery products).1
  let params := (multipleInsertQuery products).2
  let w := w.println [.str "query is", .str query]
  match d.prepare query with
  | some err =>
    ((w.step (.prepare query) (some err)).printf "Error %s when preparing SQL statement"
      [.err err], some err)
  | none =>
    let w := w.step (.prepare query) none
    match d.stmtExec query params with
    | .error err =>
      (((w.step (.stmtExec query params) (some err)).printf
        "Error %s when inserting row into products table" [.err err]).step .stmtClose none,
        some err)
    | .ok res =>
      let w := w.step (.stmtExec query params) none
      match res.rowsAffected with
      | .error err =>
        (((w.step .rowsAffected (some err)).printf "Error %s when finding rows affected"
          [.err err]).step .stmtClose none, some err)
      | .ok rows =>
        (((w.step .rowsAffected none).printf "%d products created simultaneously"
          [.int rows]).step .stmtClose none, none)

/-- Go `selectPrice`; returns the price and the error. -/
def selectPrice (d : Driver) (productName : String) (w : World) :
    World × Int × Option Err :=
  let w := w.printf "Getting product price" []
  let query := "select product_price from product where product_name = ?"
  match d.prepare query with
  | some err =>
    ((w.step (.prepare query) (some err)).printf "Error %s when preparing SQL statement"
      [.err err], 0, some err)
  | none =>
    let w := w.step (.prepare query) none
    match d.rowScan query [.str productName] with
    | .error err =>
      ((w.step (.rowScan query [.str productName]) (some err)).step .stmtClose none, 0,
        some err)
    | .ok price =>
      ((w.step (.rowScan query [.str productName]) none).step .stmtClose none, price, none)

/-- The `for rows.Next()` loop of `selectProductsByPrice`: `scans` are the outcomes of
`rows.Scan` for the rows still to come, `products` the slice built so far.  The result
is the error of the first failing scan, or the slice of all scanned rows. -/
def selectProductsByPriceLoop (scans : List (Except Err product)) (products : List product)
    (w : World) : World × Except Err (List product) :=
  match scans with
  | [] => (w, .ok products)
  | .error err :: _ => (w.step .rowsScan (some err), .error err)
  | .ok prd :: rest =>
    selectProductsByPriceLoop rest (products ++ [prd]) (w.step .rowsScan none)

/-- Go `selectProductsByPrice`; returns the product slice and the error. -/
def selectProductsByPrice (d : Driver) (minPrice maxPrice : Int) (w : World) :
    World × List product × Option Err :=
  let w := w.printf "Getting products by price" []
  let query :=
    "select product_name, product_price from product where product_price >= ? && product_price <= ?;"
  match d.prepare query with
  | some err =>
    ((w.step (.prepare query) (some err)).printf "Error %s when preparing SQL statement"
      [.err err], [], some err)
  | none =>
    let w := w.step (.prepare query) none
    match d.stmtQuery query [.int minPrice, .int maxPrice] with
    | .error err =>
      ((w.step (.stmtQuery query [.int minPrice, .int maxPrice]) (some err)).step
        .stmtClose none, [], some err)
    | .ok rows =>
      let w := w.step (.stmtQuery query [.int minPrice, .int maxPrice]) none
      match selectProductsByPriceLoop rows.scans [] w with
      | (w, .error err) => (w.step .stmtClose none, [], some err)
      | (w, .ok products) =>
        match rows.err with
        | some err => ((w.step .rowsErr (some err)).step .stmtClose none, [], some err)
        | none => ((w.step .rowsErr none).step .stmtClose none, products, none)

/-- Lines 244-251 of `main` in `src/select/main.go`: the `switch` on the error that
`selectPrice` returned. -/
def mainPriceSwitch (productName : String) (price : Int) (err : Option Err) (w : World) :
    World :=
  if err = some Err.ErrNoRows then
    w.printf "Product %s not found in DB" [.str productName]
  else
    match err with
    | some e => w.printf "Encountered err %s when fetching price from DB" [.err e]
    | none => w.printf "Price of %s is %d" [.str productName, .int price]

/-- Go `main` of `src/select/main.go` (that of `src/insert/main.go` is its first part,
up to the call of `multipleInsert`).  The deferred `db.Close()` runs at every return
that follows a successful connection. -/
def main (d : Driver) (w : World) : World :=
  match dbConnection d w with
  | (w, some err) => w.printf "Error %s when getting db connection" [.err err]
  | (w, none) =>
    let w := w.printf "Successfully connected to database" []
    match createProductTable d w with
    | (w, some err) =>
      (w.printf "Create product table failed with error %s" [.err err]).step .dbClose none
    | (w, none) =>
      match insert d { name := "iphone", price := 950 } w with
      | (w, some err) =>
        (w.printf "Insert product failed with error %s" [.err err]).step .dbClose none
      | (w, none) =>
        match multipleInsert d
          [{ name := "Galaxy", price := 990 }, { name := "iPad", price := 500 }] w with
        | (w, some err) =>
          (w.printf "Multiple insert failed with error %s" [.err err]).step .dbClose none
        | (w, none) =>
          match selectPrice d "iphone" w with
          | (w, price, err) =>
            let w := mainPriceSwitch "iphone" price err w
            match selectProductsByPrice d 900 1000 w with
            | (w, _, some err) =>
              (w.printf "Error %s when selecting product by price" [.err err]).step
                .dbClose none
            | (w, products, none) =>
              (products.foldl (fun w product =>
                w.printf "Name: %s Price: %d" [.str product.name, .int product.price]) w).step
                .dbClose none

/-! ## Storage behaviours used as concrete inputs -/

/-- How the storage engine evaluates the range statement of `selectProductsByPrice` over
the stored product rows: the first placeholder is the bound of `product_price >= ?`,
the second the bound of `product_price <= ?`; the matching rows are yielded in stored
order and every one scans. -/
def rangeLookup (stored : List product) (query : String) (args : List Param) :
    Except Err Rows :=
  if query =
      "select product_name, product_price from product where product_price >= ? && product_price <= ?;"
  then
    match args with
    | [.int lower, .int upper] =>
      .ok { scans := (stored.filter (fun r => lower ≤ r.price ∧ r.price ≤ upper)).map .ok,
            err := none }
    | _ => .error (.other "wrong number or type of arguments")
  else .error (.other "unexpected statement")

/-- A driver on which no step is scripted: every step reports an error. -/
def unscripted : Driver where
  sqlOpen := fun _ => some (.other "unscripted")
  dbExec := fun _ => .error (.other "unscripted")
  ping := fun _ => some (.other "unscripted")
  prepare := fun _ => some (.other "unscripted")
  stmtExec := fun _ _ => .error (.other "unscripted")
  rowScan := fun _ _ => .error (.other "unscripted")
  stmtQuery := fun _ _ => .error (.other "unscripted")

/-- A driver that prepares every statement and answers the range statement from the
stored rows. -/
def rangeDriver (stored : List product) : Driver :=
  { unscripted with prepare := fun _ => none, stmtQuery := rangeLookup stored }

/-- A driver that prepares every statement and whose point lookup matches no row. -/
def noRowsDriver : Driver :=
  { unscripted with prepare := fun _ => none, rowScan := fun _ _ => .error .ErrNoRows }

/-- A driver that prepares every statement and whose point lookup fails on a lost
connection. -/
def lostConnectionDriver : Driver :=
  { unscripted with
    prepare := fun _ => none,
    rowScan := fun _ _ => .error (.other "invalid connection") }

/-- A driver whose range query yields one good row and then a row that fails to scan. -/
def badRowDriver : Driver :=
  { unscripted with
    prepare := fun _ => none,
    stmtQuery := fun _ _ =>
      .ok { scans := [.ok { name := "iphone", price := 950 }, .error (.other "bad row")],
            err := none } }

/-! ## Observing a run -/

/-- Whether a run re-raised faithfully: either no step reported an error and the
function returned nil, or the function returned the error of the first failing step and
nothing but the deferred `stmt.Close()` was executed after that step. -/
def propagates (steps : List (Step × Option Err)) (ret : Option Err) : Bool :=
  match steps.dropWhile (fun s => s.2.isNone) with
  | [] => decide (ret = none)
  | (_, out) :: later =>
    decide (ret = out) && later.all (fun x => decide (x = (Step.stmtClose, none)))

/-- Whether some log call of the run was given the error `e` as an argument. -/
def logsFailure (log : List LogEntry) (e : Err) : Bool :=
  log.any (fun entry =>
    match entry with
    | .printf _ args => decide (LogArg.err e ∈ args)
    | .println args => decide (LogArg.err e ∈ args))


/-- The storage steps a run added: those of `after` that were not yet in `before`. -/
def newSteps (before after : World) : List (Step × Option Err) :=
  after.steps.drop before.steps.length

/-- The log lines a run added. -/
def newLog (before after : World) : List LogEntry :=
  after.log.drop before.log.length

/-- The statement texts handed to statement preparation, in order. -/
def preparedTexts (steps : List (Step × Option Err)) : List String :=
  steps.filterMap (fun s =>
    match s.1 with
    | .prepare q => some q
    | _ => none)

/-- The (statement text, parameter sequence) pairs handed to prepared-statement
execution, in order. -/
def execCalls (steps : List (Step × Option Err)) : List (String × List Param) :=
  steps.filterMap (fun s =>
    match s.1 with
    | .stmtExec q args => some (q, args)
    | _ => none)

/-- Whether a run logged and re-raised: it propagated the failing step's error, and when
it returned an error some log call of the run carries that error. -/
def logsAndReraises (before after : World) (ret : Option Err) : Bool :=
  propagates (newSteps before after) ret &&
    (match ret with
    | none => true
    | some e => logsFailure (newLog before after) e)

/-! ## Helper lemmas on the builder -/

/-- The parameters one product contributes: its name, then its price. -/
def productParams (v : product) : List Param := [Param.str v.name, Param.int v.price]

theorem multipleInsertLoop_foldl (products : List product) (ins : List String)
    (par : List Param) :
    products.foldl multipleInsertLoop (ins, par) =
      (ins ++ List.replicate products.length "(?, ?)", par ++ products.flatMap productParams) := by
  induction products generalizing ins par with
  | nil => simp
  | cons v vs ih =>
    rw [List.foldl_cons, multipleInsertLoop, ih]
    simp [List.replicate_succ, productParams]

theorem string_join_cons (a : String) (l : List String) :
    String.join (a :: l) = a ++ String.join l := by
  apply String.ext
  simp [String.data_join, String.data_append]

theorem stringsJoin_foldl (l : List String) (e sep : String) :
    l.foldl (fun b s => b ++ sep ++ s) e = e ++ String.join (l.map (fun s => sep ++ s)) := by
  induction l generalizing e with
  | nil =>
    apply String.ext
    simp [String.data_join, String.data_append]
  | cons a as ih =>
    rw [List.foldl_cons, ih, List.map_cons, string_join_cons]
    simp [String.append_assoc]

theorem multipleInsertQuery_params (products : List product) :
    (multipleInsertQuery products).2 = products.flatMap productParams := by
  simp [multipleInsertQuery, multipleInsertLoop_foldl]

theorem multipleInsertQuery_text (products : List product) :
    (multipleInsertQuery products).1 =
      "INSERT INTO product(product_name, product_price) VALUES " ++
        stringsJoin (List.replicate products.length "(?, ?)") "," := by
  simp [multipleInsertQuery, multipleInsertLoop_foldl]

theorem productParams_flatMap_length (products : List product) :
    (products.flatMap productParams).length = 2 * products.length := by
  induction products with
  | nil => simp
  | cons v vs ih =>
    simp only [List.flatMap_cons, List.length_append, ih, List.length_cons, productParams,
      List.length_nil]
    omega

theorem productParams_flatMap_index (products : List product) (i : Nat) (p : product)
    (hp : products[i]? = some p) :
    (products.flatMap productParams)[2 * i]? = some (Param.str p.name) ∧
      (products.flatMap productParams)[2 * i + 1]? = some (Param.int p.price) := by
  induction products generalizing i with
  | nil => simp at hp
  | cons v vs ih =>
    cases i with
    | zero =>
      simp only [List.getElem?_cons_zero, Option.some.injEq] at hp
      subst hp
      simp [productParams]
    | succ j =>
      simp only [List.getElem?_cons_succ] at hp
      have h1 : 2 * (j + 1) = (2 * j) + 1 + 1 := by omega
      rw [h1]
      simpa [productParams] using ih j hp

/-! ## Helper lemmas on the runs -/

theorem multipleInsert_sends (d : Driver) (products : List product) (w : World) :
    preparedTexts (newSteps w (multipleInsert d products w).1) =
        [(multipleInsertQuery products).1] ∧
      execCalls (newSteps w (multipleInsert d products w).1) =
        (if d.prepare (multipleInsertQuery products).1 = none
          then [multipleInsertQuery products] else []) := by
  cases hp : d.prepare (multipleInsertQuery products).1 with
  | some err =>
    simp [multipleInsert, hp, newSteps, preparedTexts, execCalls, World.step, World.printf,
      World.println]
  | none =>
    cases he : d.stmtExec (multipleInsertQuery products).1 (multipleInsertQuery products).2 with
    | error err =>
      simp [multipleInsert, hp, he, newSteps, preparedTexts, execCalls, World.step,
        World.printf, World.println]
    | ok res =>
      cases hr : res.rowsAffected <;>
        simp [multipleInsert, hp, he, hr, newSteps, preparedTexts, execCalls, World.step,
          World.printf, World.println]

theorem insert_sends (d : Driver) (p : product) (w : World) :
    preparedTexts (newSteps w (insert d p w).1) =
        ["INSERT INTO product(product_name, product_price) VALUES (?, ?)"] ∧
      execCalls (newSteps w (insert d p w).1) =
        (if d.prepare "INSERT INTO product(product_name, product_price) VALUES (?, ?)" = none
          then [("INSERT INTO product(product_name, product_price) VALUES (?, ?)",
            [Param.str p.name, Param.int p.price])] else []) := by
  cases hp : d.prepare "INSERT INTO product(product_name, product_price) VALUES (?, ?)" with
  | some err =>
    simp [insert, hp, newSteps, preparedTexts, execCalls, World.step, World.printf]
  | none =>
    cases he : d.stmtExec "INSERT INTO product(product_name, product_price) VALUES (?, ?)"
        [Param.str p.name, Param.int p.price] with
    | error err =>
      simp [insert, hp, he, newSteps, preparedTexts, execCalls, World.step, World.printf]
    | ok res =>
      cases hr : res.rowsAffected with
      | error err =>
        simp [insert, hp, he, hr, newSteps, preparedTexts, execCalls, World.step,
          World.printf]
      | ok rows =>
        cases hl : res.lastInsertId <;>
          simp [insert, hp, he, hr, hl, newSteps, preparedTexts, execCalls, World.step,
            World.printf]

theorem multipleInsert_first_step (d : Driver) (products : List product) (w : World) :
    (newSteps w (multipleInsert d products w).1).head? =
        some (Step.prepare (multipleInsertQuery products).1,
          d.prepare (multipleInsertQuery products).1) ∧
      (newLog w (multipleInsert d products w).1).head? =
        some (LogEntry.println
          [LogArg.str "query is", LogArg.str (multipleInsertQuery products).1]) := by
  cases hp : d.prepare (multipleInsertQuery products).1 with
  | some err =>
    simp [multipleInsert, hp, newSteps, newLog, World.step, World.printf, World.println]
  | none =>
    cases he : d.stmtExec (multipleInsertQuery products).1 (multipleInsertQuery products).2 with
    | error err =>
      simp [multipleInsert, hp, he, newSteps, newLog, World.step, World.printf,
        World.println]
    | ok res =>
      cases hr : res.rowsAffected <;>
        simp [multipleInsert, hp, he, hr, newSteps, newLog, World.step, World.printf,
          World.println]

theorem multipleInsertQuery_text_of_length (ps qs : List product)
    (h : ps.length = qs.length) :
    (multipleInsertQuery ps).1 = (multipleInsertQuery qs).1 := by
  rw [multipleInsertQuery_text, multipleInsertQuery_text, h]

theorem selectProductsByPriceLoop_spec (scans : List (Except Err product))
    (acc : List product) (w : World) :
    (∃ rest : List product, scans = rest.map Except.ok ∧
        selectProductsByPriceLoop scans acc w =
          ({ w with steps := w.steps ++ List.replicate rest.length (Step.rowsScan, none) },
            Except.ok (acc ++ rest))) ∨
      (∃ (rest : List product) (e : Err) (tail : List (Except Err product)),
        scans = rest.map Except.ok ++ Except.error e :: tail ∧
        selectProductsByPriceLoop scans acc w =
          ({ w with steps := w.steps ++ List.replicate rest.length (Step.rowsScan, none) ++
              [(Step.rowsScan, some e)] }, Except.error e)) := by
  induction scans generalizing acc w with
  | nil =>
    left
    exact ⟨[], rfl, by simp [selectProductsByPriceLoop]⟩
  | cons s rest ih =>
    cases s with
    | error e =>
      right
      exact ⟨[], e, rest, rfl, by simp [selectProductsByPriceLoop, World.step]⟩
    | ok prd =>
      rcases ih (acc ++ [prd]) (w.step Step.rowsScan none) with ⟨r, hr, hl⟩ | ⟨r, e, tail, hr, hl⟩
      · left
        refine ⟨prd :: r, by simp [hr], ?_⟩
        rw [selectProductsByPriceLoop, hl]
        simp [World.step, List.replicate_succ]
      · right
        refine ⟨prd :: r, e, tail, by simp [hr], ?_⟩
        rw [selectProductsByPriceLoop, hl]
        simp [World.step, List.replicate_succ]

theorem dropWhile_replicate_append {α : Type} (p : α → Bool) (a : α) (k : Nat) (l : List α)
    (h : p a = true) : (List.replicate k a ++ l).dropWhile p = l.dropWhile p := by
  induction k with
  | zero => simp
  | succ n ih => simp [List.replicate_succ, List.dropWhile_cons, h, ih]

theorem selectProductsByPrice_result (d : Driver) (minPrice maxPrice : Int) (w : World) :
    ((selectProductsByPrice d minPrice maxPrice w).2.2 ≠ none →
        (selectProductsByPrice d minPrice maxPrice w).2.1 = []) ∧
      ((selectProductsByPrice d minPrice maxPrice w).2.2 = none →
        ∃ rows : Rows,
          d.stmtQuery
              "select product_name, product_price from product where product_price >= ? && product_price <= ?;"
              [Param.int minPrice, Param.int maxPrice] = Except.ok rows ∧
            rows.err = none ∧
            rows.scans = (selectProductsByPrice d minPrice maxPrice w).2.1.map Except.ok) := by
  cases hp : d.prepare
      "select product_name, product_price from product where product_price >= ? && product_price <= ?;" with
  | some err => simp [selectProductsByPrice, hp]
  | none =>
    cases hq : d.stmtQuery
        "select product_name, product_price from product where product_price >= ? && product_price <= ?;"
        [Param.int minPrice, Param.int maxPrice] with
    | error err => simp [selectProductsByPrice, hp, hq]
    | ok rows =>
      rcases selectProductsByPriceLoop_spec rows.scans []
          (((w.printf "Getting products by price" []).step (Step.prepare
            "select product_name, product_price from product where product_price >= ? && product_price <= ?;")
            none).step (Step.stmtQuery
            "select product_name, product_price from product where product_price >= ? && product_price <= ?;"
            [Param.int minPrice, Param.int maxPrice]) none)
        with ⟨r, hr, hl⟩ | ⟨r, e, tail, hr, hl⟩
      · cases he : rows.err with
        | some err => simp [selectProductsByPrice, hp, hq, hl, he]
        | none =>
          simp only [selectProductsByPrice, hp, hq, hl, he]
          simp [hr, he]
      · simp [selectProductsByPrice, hp, hq, hl]

theorem dbConnection_logs_and_reraises (d : Driver) (w : World) :
    logsAndReraises w (dbConnection d w).1 (dbConnection d w).2 = true := by
  cases h1 : d.sqlOpen (dsn "") with
  | some err =>
    simp [dbConnection, h1, logsAndReraises, propagates, logsFailure, newSteps, newLog,
      World.step, World.printf, List.dropWhile]
  | none =>
    cases h2 : d.dbExec ("CREATE DATABASE IF NOT EXISTS " ++ dbname) with
    | error err =>
      simp [dbConnection, h1, h2, logsAndReraises, propagates, logsFailure, newSteps, newLog,
        World.step, World.printf, List.dropWhile]
    | ok res =>
      cases h3 : res.rowsAffected with
      | error err =>
        simp [dbConnection, h1, h2, h3, logsAndReraises, propagates, logsFailure, newSteps,
          newLog, World.step, World.printf, List.dropWhile]
      | ok no =>
        cases h4 : d.sqlOpen (dsn dbname) with
        | some err =>
          simp [dbConnection, h1, h2, h3, h4, logsAndReraises, propagates, logsFailure,
            newSteps, newLog, World.step, World.printf, List.dropWhile]
        | none =>
          cases h5 : d.ping (dsn dbname) <;>
            simp [dbConnection, h1, h2, h3, h4, h5, logsAndReraises, propagates, logsFailure,
              newSteps, newLog, World.step, World.printf, List.dropWhile]

theorem createProductTable_logs_and_reraises (d : Driver) (w : World) :
    logsAndReraises w (createProductTable d w).1 (createProductTable d w).2 = true := by
  cases h1 : d.dbExec createProductTableQuery with
  | error err =>
    simp [createProductTable, h1, logsAndReraises, propagates, logsFailure, newSteps,
          newLog, World.step, World.printf, World.println, List.dropWhile]
  | ok res =>
    cases h2 : res.rowsAffected <;>
      simp [createProductTable, h1, h2, logsAndReraises, propagates, logsFailure, newSteps,
          newLog, World.step, World.printf, World.println, List.dropWhile]

theorem insert_logs_and_reraises (d : Driver) (p : product) (w : World) :
    logsAndReraises w (insert d p w).1 (insert d p w).2 = true := by
  cases hp : d.prepare "INSERT INTO product(product_name, product_price) VALUES (?, ?)" with
  | some err =>
    simp [insert, hp, logsAndReraises, propagates, logsFailure, newSteps,
          newLog, World.step, World.printf, World.println, List.dropWhile]
  | none =>
    cases he : d.stmtExec "INSERT INTO product(product_name, product_price) VALUES (?, ?)"
        [Param.str p.name, Param.int p.price] with
    | error err =>
      simp [insert, hp, he, logsAndReraises, propagates, logsFailure, newSteps,
          newLog, World.step, World.printf, World.println, List.dropWhile]
    | ok res =>
      cases hr : res.rowsAffected with
      | error err =>
        simp [insert, hp, he, hr, logsAndReraises, propagates, logsFailure, newSteps,
          newLog, World.step, World.printf, World.println, List.dropWhile]
      | ok rows =>
        cases hl : res.lastInsertId <;>
          simp [insert, hp, he, hr, hl, logsAndReraises, propagates, logsFailure, newSteps,
          newLog, World.step, World.printf, World.println, List.dropWhile]

theorem multipleInsert_logs_and_reraises (d : Driver) (products : List product) (w : World) :
    logsAndReraises w (multipleInsert d products w).1 (multipleInsert d products w).2 = true := by
  cases hp : d.prepare (multipleInsertQuery products).1 with
  | some err =>
    simp [multipleInsert, hp, logsAndReraises, propagates, logsFailure, newSteps,
          newLog, World.step, World.printf, World.println, List.dropWhile]
  | none =>
    cases he : d.stmtExec (multipleInsertQuery products).1 (multipleInsertQuery products).2 with
    | error err =>
      simp [multipleInsert, hp, he, logsAndReraises, propagates, logsFailure, newSteps,
          newLog, World.step, World.printf, World.println, List.dropWhile]
    | ok res =>
      cases hr : res.rowsAffected <;>
        simp [multipleInsert, hp, he, hr, logsAndReraises, propagates, logsFailure, newSteps,
          newLog, World.step, World.printf, World.println, List.dropWhile]

theorem selectPrice_propagates (d : Driver) (productName : String) (w : World) :
    propagates (newSteps w (selectPrice d productName w).1)
        (selectPrice d productName w).2.2 = true ∧
      (∀ e : Err, d.prepare "select product_price from product where product_name = ?" = some e →
        logsFailure (newLog w (selectPrice d productName w).1) e = true) ∧
      (d.prepare "select product_price from product where product_name = ?" = none →
        newLog w (selectPrice d productName w).1 =
          [LogEntry.printf "Getting product price" []]) := by
  cases hp : d.prepare "select product_price from product where product_name = ?" with
  | some err =>
    simp [selectPrice, hp, logsAndReraises, propagates, logsFailure, newSteps,
          newLog, World.step, World.printf, World.println, List.dropWhile]
  | none =>
    cases hs : d.rowScan "select product_price from product where product_name = ?" [Param.str productName] <;>
      simp [selectPrice, hp, hs, logsAndReraises, propagates, logsFailure, newSteps,
          newLog, World.step, World.printf, World.println, List.dropWhile]

theorem selectProductsByPrice_propagates (d : Driver) (minPrice maxPrice : Int) (w : World) :
    propagates (newSteps w (selectProductsByPrice d minPrice maxPrice w).1)
        (selectProductsByPrice d minPrice maxPrice w).2.2 = true ∧
      (∀ e : Err, d.prepare "select product_name, product_price from product where product_price >= ? && product_price <= ?;" = some e →
        logsFailure (newLog w (selectProductsByPrice d minPrice maxPrice w).1) e = true) ∧
      (d.prepare "select product_name, product_price from product where product_price >= ? && product_price <= ?;" = none →
        newLog w (selectProductsByPrice d minPrice maxPrice w).1 =
          [LogEntry.printf "Getting products by price" []]) := by
  cases hp : d.prepare "select product_name, product_price from product where product_price >= ? && product_price <= ?;" with
  | some err =>
    simp [selectProductsByPrice, hp, logsAndReraises, propagates, logsFailure, newSteps,
          newLog, World.step, World.printf, World.println, List.dropWhile]
  | none =>
    cases hq : d.stmtQuery "select product_name, product_price from product where product_price >= ? && product_price <= ?;" [Param.int minPrice, Param.int maxPrice] with
    | error err =>
      simp [selectProductsByPrice, hp, hq, logsAndReraises, propagates, logsFailure, newSteps,
          newLog, World.step, World.printf, World.println, List.dropWhile]
    | ok rows =>
      rcases selectProductsByPriceLoop_spec rows.scans []
          (((w.printf "Getting products by price" []).step (Step.prepare "select product_name, product_price from product where product_price >= ? && product_price <= ?;")
            none).step (Step.stmtQuery "select product_name, product_price from product where product_price >= ? && product_price <= ?;"
            [Param.int minPrice, Param.int maxPrice]) none)
        with ⟨r, hr, hl⟩ | ⟨r, e, tail, hr, hl⟩
      · cases he : rows.err <;>
          simp only [selectProductsByPrice, hp, hq, hl, he] <;>
          simp [dropWhile_replicate_append, logsAndReraises, propagates, logsFailure, newSteps,
          newLog, World.step, World.printf, World.println, List.dropWhile]
      · simp only [selectProductsByPrice, hp, hq, hl]
        simp [dropWhile_replicate_append, logsAndReraises, propagates, logsFailure, newSteps,
          newLog, World.step, World.printf, World.println, List.dropWhile]

theorem multipleInsert_step_kinds (d : Driver) (products : List product) (w : World) :
    ∀ s ∈ newSteps w (multipleInsert d products w).1,
      s.1 = Step.prepare (multipleInsertQuery products).1 ∨
        s.1 = Step.stmtExec (multipleInsertQuery products).1 (multipleInsertQuery products).2 ∨
        s.1 = Step.rowsAffected ∨ s.1 = Step.stmtClose := by
  cases hp : d.prepare (multipleInsertQuery products).1 with
  | some err =>
    simp [multipleInsert, hp, newSteps, World.step, World.printf, World.println]
  | none =>
    cases he : d.stmtExec (multipleInsertQuery products).1 (multipleInsertQuery products).2 with
    | error err =>
      simp [multipleInsert, hp, he, newSteps, World.step, World.printf, World.println]
    | ok res =>
      cases hr : res.rowsAffected <;>
        simp [multipleInsert, hp, he, hr, newSteps, World.step, World.printf, World.println]

theorem multipleInsertQuery_singleton (p : product) :
    multipleInsertQuery [p] =
      ("INSERT INTO product(product_name, product_price) VALUES (?, ?)", [Param.str p.name, Param.int p.price]) := by
  simp only [multipleInsertQuery, List.foldl_cons, List.foldl_nil, multipleInsertLoop,
    List.nil_append, stringsJoin]
  have hs : "INSERT INTO product(product_name, product_price) VALUES " ++ "(?, ?)" =
      "INSERT INTO product(product_name, product_price) VALUES (?, ?)" := by decide
  rw [hs]

theorem insert_steps_eq_multipleInsert (d : Driver) (p : product) (w : World) :
    (newSteps w (insert d p w).1).filter (fun s => decide (s.1 ≠ Step.lastInsertId)) =
      newSteps w (multipleInsert d [p] w).1 := by
  have hq := multipleInsertQuery_singleton p
  cases hp : d.prepare "INSERT INTO product(product_name, product_price) VALUES (?, ?)" with
  | some err =>
    simp [insert, multipleInsert, hq, hp, newSteps, World.step, World.printf, World.println]
  | none =>
    cases he : d.stmtExec "INSERT INTO product(product_name, product_price) VALUES (?, ?)" [Param.str p.name, Param.int p.price] with
    | error err =>
      simp [insert, multipleInsert, hq, hp, he, newSteps, World.step, World.printf,
        World.println]
    | ok res =>
      cases hr : res.rowsAffected with
      | error err =>
        simp [insert, multipleInsert, hq, hp, he, hr, newSteps, World.step, World.printf,
          World.println]
      | ok rows =>
        cases hl : res.lastInsertId <;>
          simp [insert, multipleInsert, hq, hp, he, hr, hl, newSteps, World.step,
            World.printf, World.println]

/-! ## The claims -/

/-- C1: for a non-empty product sequence of length N, the statement text built by
`multipleInsert` is the fixed text `INSERT INTO product(product_name, product_price)
VALUES ` followed by one group `(?, ?)` and then N-1 times a comma and a group (so N
groups, N-1 separating commas, no trailing comma), and the parameter sequence has
length 2N. -/
theorem multipleInsertQuery_shape (products : List product) (h : products ≠ []) :
    (multipleInsertQuery products).1 =
        "INSERT INTO product(product_name, product_price) VALUES " ++ "(?, ?)" ++
          String.join (List.replicate (products.length - 1) ",(?, ?)") ∧
      (multipleInsertQuery products).2.length = 2 * products.length := by
  refine ⟨?_, ?_⟩
  · rw [multipleInsertQuery_text]
    cases products with
    | nil => exact absurd rfl h
    | cons v vs =>
      simp only [List.length_cons, List.replicate_succ, stringsJoin]
      rw [stringsJoin_foldl, List.map_replicate, Nat.add_sub_cancel, String.append_assoc]
      rfl
  · rw [multipleInsertQuery_params, productParams_flatMap_length]

theorem multipleInsertQuery_shape_witness :
    [product.mk "Galaxy" 990, product.mk "iPad" 500] ≠ [] ∧
      (multipleInsertQuery [product.mk "Galaxy" 990, product.mk "iPad" 500]).1 =
        "INSERT INTO product(product_name, product_price) VALUES (?, ?),(?, ?)" ∧
      (multipleInsertQuery [product.mk "Galaxy" 990, product.mk "iPad" 500]).2.length = 4 :=
  ⟨by decide,
    (multipleInsertQuery_shape [product.mk "Galaxy" 990, product.mk "iPad" 500]
      (by decide)).1.trans (by decide),
    (multipleInsertQuery_shape [product.mk "Galaxy" 990, product.mk "iPad" 500]
      (by decide)).2⟩

/-- C2: for every product sequence, the empty one included, the parameter sequence built
by `multipleInsert` is the concatenation, in input order, of each element's name then
price (so it is empty for the empty sequence), and for every index i holding element p it
has the name of p at index 2i and the price of p at index 2i+1. -/
theorem multipleInsertQuery_params_order (products : List product) :
    (multipleInsertQuery products).2 =
        products.flatMap (fun v => [Param.str v.name, Param.int v.price]) ∧
      (multipleInsertQuery []).2 = [] ∧
      (∀ (i : Nat) (p : product), products[i]? = some p →
        (multipleInsertQuery products).2[2 * i]? = some (Param.str p.name) ∧
          (multipleInsertQuery products).2[2 * i + 1]? = some (Param.int p.price)) := by
  refine ⟨multipleInsertQuery_params products, ?_, ?_⟩
  · rw [multipleInsertQuery_params]
    rfl
  · intro i p hp
    rw [multipleInsertQuery_params]
    exact productParams_flatMap_index products i p hp

theorem multipleInsertQuery_params_order_witness :
    (multipleInsertQuery [product.mk "Galaxy" 990, product.mk "iPad" 500]).2 =
        [Param.str "Galaxy", Param.int 990, Param.str "iPad", Param.int 500] ∧
      (multipleInsertQuery [product.mk "Galaxy" 990, product.mk "iPad" 500]).2[2]? =
        some (Param.str "iPad") ∧
      (multipleInsertQuery [product.mk "Galaxy" 990, product.mk "iPad" 500]).2[3]? =
        some (Param.int 500) :=
  ⟨(multipleInsertQuery_params_order
      [product.mk "Galaxy" 990, product.mk "iPad" 500]).1.trans (by decide),
    ((multipleInsertQuery_params_order [product.mk "Galaxy" 990, product.mk "iPad" 500]).2.2 1
      (product.mk "iPad" 500) (by decide)).1,
    ((multipleInsertQuery_params_order [product.mk "Galaxy" 990, product.mk "iPad" 500]).2.2 1
      (product.mk "iPad" 500) (by decide)).2⟩

/-- C3: idempotence of the batch builder.  For every product sequence there is one
statement text and one parameter sequence, fixed by the input alone, such that every
call of `multipleInsert` on that input, under any driver and from any world left by
earlier calls, prepares exactly that text and binds exactly those parameters (when
preparation succeeds); in particular calling it twice in a row hands over byte-identical
statement text and identical parameter sequences. -/
theorem multipleInsert_idempotent (products : List product) :
    ∃ (query : String) (params : List Param),
      multipleInsertQuery products = (query, params) ∧
      (∀ (d : Driver) (w : World),
        preparedTexts (newSteps w (multipleInsert d products w).1) = [query] ∧
          execCalls (newSteps w (multipleInsert d products w).1) =
            (if d.prepare query = none then [(query, params)] else [])) ∧
      (∀ (d : Driver) (w : World),
        preparedTexts (newSteps (multipleInsert d products w).1
            (multipleInsert d products (multipleInsert d products w).1).1) =
          preparedTexts (newSteps w (multipleInsert d products w).1) ∧
        execCalls (newSteps (multipleInsert d products w).1
            (multipleInsert d products (multipleInsert d products w).1).1) =
          execCalls (newSteps w (multipleInsert d products w).1)) := by
  refine ⟨(multipleInsertQuery products).1, (multipleInsertQuery products).2, rfl, ?_, ?_⟩
  · intro d w
    exact multipleInsert_sends d products w
  · intro d w
    rw [(multipleInsert_sends d products w).1, (multipleInsert_sends d products w).2,
      (multipleInsert_sends d products _).1, (multipleInsert_sends d products _).2]
    exact ⟨rfl, rfl⟩

/-- C4: the empty product sequence is not rejected.  `multipleInsert` builds the statement
text `INSERT INTO product(product_name, product_price) VALUES ` with no placeholder group
and an empty parameter sequence, logs that text, and its first storage step is the
preparation of exactly that text (which it then executes with no parameter when the
preparation succeeds). -/
theorem multipleInsert_empty (d : Driver) (w : World) :
    multipleInsertQuery [] =
        ("INSERT INTO product(product_name, product_price) VALUES ", []) ∧
      (newLog w (multipleInsert d [] w).1).head? =
        some (LogEntry.println [LogArg.str "query is",
          LogArg.str "INSERT INTO product(product_name, product_price) VALUES "]) ∧
      (newSteps w (multipleInsert d [] w).1).head? =
        some (Step.prepare "INSERT INTO product(product_name, product_price) VALUES ",
          d.prepare "INSERT INTO product(product_name, product_price) VALUES ") ∧
      preparedTexts (newSteps w (multipleInsert d [] w).1) =
        ["INSERT INTO product(product_name, product_price) VALUES "] ∧
      execCalls (newSteps w (multipleInsert d [] w).1) =
        (if d.prepare "INSERT INTO product(product_name, product_price) VALUES " = none
          then [("INSERT INTO product(product_name, product_price) VALUES ", [])] else []) := by
  have hq : multipleInsertQuery [] =
      ("INSERT INTO product(product_name, product_price) VALUES ", []) := by decide
  have h1 := multipleInsert_first_step d [] w
  have h2 := multipleInsert_sends d [] w
  rw [hq] at h1 h2
  exact ⟨hq, h1.2, h1.1, h2.1, h2.2⟩

/-- C5: the statement text built by `multipleInsert` holds no data value.  Two product
sequences of the same length, whatever their names and prices, give byte-identical
statement text.  Under every driver and world, every storage step `multipleInsert`
performs on the first sequence is the preparation of that shared text, the execution of
that shared text with the parameter sequence, the rows-affected read or the deferred
close, and nothing else; the execution is handed exactly the built parameter sequence.
So names and prices reach the storage layer only through the parameter sequence. -/
theorem multipleInsert_text_data_free (ps qs : List product) (h : ps.length = qs.length) :
    (multipleInsertQuery ps).1 = (multipleInsertQuery qs).1 ∧
      (∀ (d : Driver) (w : World),
        (∀ s ∈ newSteps w (multipleInsert d ps w).1,
          s.1 = Step.prepare (multipleInsertQuery qs).1 ∨
            s.1 = Step.stmtExec (multipleInsertQuery qs).1 (multipleInsertQuery ps).2 ∨
            s.1 = Step.rowsAffected ∨ s.1 = Step.stmtClose) ∧
          execCalls (newSteps w (multipleInsert d ps w).1) =
            (if d.prepare (multipleInsertQuery qs).1 = none
              then [((multipleInsertQuery qs).1, (multipleInsertQuery ps).2)] else []) ∧
          preparedTexts (newSteps w (multipleInsert d ps w).1) =
            preparedTexts (newSteps w (multipleInsert d qs w).1) ∧
          (newLog w (multipleInsert d ps w).1).head? =
            (newLog w (multipleInsert d qs w).1).head? ∧
          (execCalls (newSteps w (multipleInsert d ps w).1)).map Prod.fst =
            (execCalls (newSteps w (multipleInsert d qs w).1)).map Prod.fst) := by
  have hq := multipleInsertQuery_text_of_length ps qs h
  refine ⟨hq, ?_⟩
  intro d w
  refine ⟨?_, ?_, ?_⟩
  · rw [← hq]
    exact multipleInsert_step_kinds d ps w
  · rw [(multipleInsert_sends d ps w).2, ← hq]
  · rw [(multipleInsert_sends d ps w).1, (multipleInsert_sends d qs w).1,
      (multipleInsert_sends d ps w).2, (multipleInsert_sends d qs w).2,
      (multipleInsert_first_step d ps w).2, (multipleInsert_first_step d qs w).2, hq]
    refine ⟨rfl, rfl, ?_⟩
    cases d.prepare (multipleInsertQuery qs).1 <;> simp [hq]

theorem multipleInsert_text_data_free_witness :
    [product.mk "(?, ?),(?, ?)" 1, product.mk "x, y) VALUES (?" (-5)].length =
        [product.mk "Galaxy" 990, product.mk "iPad" 500].length ∧
      (multipleInsertQuery [product.mk "(?, ?),(?, ?)" 1, product.mk "x, y) VALUES (?" (-5)]).1 =
        "INSERT INTO product(product_name, product_price) VALUES (?, ?),(?, ?)" :=
  ⟨by decide,
    (multipleInsert_text_data_free
      [product.mk "(?, ?),(?, ?)" 1, product.mk "x, y) VALUES (?" (-5)]
      [product.mk "Galaxy" 990, product.mk "iPad" 500] (by decide)).1.trans (by decide)⟩

/-- C9: for every product p the batch path on the one-element sequence [p] sends the
storage layer exactly what the single-row path sends.  `multipleInsert` builds the text
`INSERT INTO product(product_name, product_price) VALUES (?, ?)`, the fixed statement of
`insert`, with the parameters [p.name, p.price]; and under every driver and world the
whole list of storage steps of `multipleInsert` on [p], outcomes included, is the list of
storage steps of `insert` on p without its generated-id read, so both prepare the same
text and execute it with the same parameter sequence, and the batch path sends nothing
more. -/
theorem multipleInsert_singleton_eq_insert (p : product) :
    multipleInsertQuery [p] =
        ("INSERT INTO product(product_name, product_price) VALUES (?, ?)", [Param.str p.name, Param.int p.price]) ∧
      (∀ (d : Driver) (w : World),
        newSteps w (multipleInsert d [p] w).1 =
            (newSteps w (insert d p w).1).filter (fun s => decide (s.1 ≠ Step.lastInsertId)) ∧
          preparedTexts (newSteps w (multipleInsert d [p] w).1) =
            preparedTexts (newSteps w (insert d p w).1) ∧
          execCalls (newSteps w (multipleInsert d [p] w).1) =
            execCalls (newSteps w (insert d p w).1)) := by
  have hq := multipleInsertQuery_singleton p
  refine ⟨hq, ?_⟩
  intro d w
  refine ⟨(insert_steps_eq_multipleInsert d p w).symm, ?_⟩
  have h2 := multipleInsert_sends d [p] w
  rw [hq] at h2
  rw [h2.1, h2.2, (insert_sends d p w).1, (insert_sends d p w).2]
  exact ⟨rfl, rfl⟩

/-- C10: `selectProductsByPrice` never returns partial results with an error.  Under every
driver, whenever the returned error is non-nil the returned product list is empty, and
whenever it is nil the query succeeded, every row the cursor yielded scanned, and the
returned list is exactly those scanned rows in order. -/
theorem selectProductsByPrice_all_or_nothing (d : Driver) (minPrice maxPrice : Int) (w : World) :
    ((selectProductsByPrice d minPrice maxPrice w).2.2 ≠ none →
        (selectProductsByPrice d minPrice maxPrice w).2.1 = []) ∧
      ((selectProductsByPrice d minPrice maxPrice w).2.2 = none →
        ∃ rows : Rows,
          d.stmtQuery
              "select product_name, product_price from product where product_price >= ? && product_price <= ?;"
              [Param.int minPrice, Param.int maxPrice] = Except.ok rows ∧
            rows.err = none ∧
            rows.scans = (selectProductsByPrice d minPrice maxPrice w).2.1.map Except.ok) :=
  selectProductsByPrice_result d minPrice maxPrice w

theorem selectProductsByPrice_all_or_nothing_witness :
    (selectProductsByPrice badRowDriver 900 1000 World.empty).2.2 =
        some (Err.other "bad row") ∧
      (selectProductsByPrice badRowDriver 900 1000 World.empty).2.1 = [] :=
  ⟨by decide,
    (selectProductsByPrice_all_or_nothing badRowDriver 900 1000 World.empty).1 (by decide)⟩

/-- C7: over any stored product rows and for all integers minPrice and maxPrice, a
successful `selectProductsByPrice` returns exactly the stored products whose price p
satisfies minPrice <= p <= maxPrice (both ends included), each with its stored name and
price, once each and in the order the storage yields them; the storage evaluates the
first placeholder as the lower bound and the second as the upper bound. -/
theorem selectProductsByPrice_range (d : Driver) (stored : List product)
    (minPrice maxPrice : Int) (w : World) (products : List product)
    (hq : d.stmtQuery = rangeLookup stored)
    (hs : (selectProductsByPrice d minPrice maxPrice w).2 = (products, none)) :
    products = stored.filter (fun r => minPrice ≤ r.price ∧ r.price ≤ maxPrice) := by
  have h := (selectProductsByPrice_result d minPrice maxPrice w).2
  rw [hs, hq] at h
  obtain ⟨rows, hrows, _, hscans⟩ := h rfl
  simp only [rangeLookup, if_true, Except.ok.injEq] at hrows
  rw [← hrows] at hscans
  exact (List.map_injective_iff.mpr (fun a b hab => Except.ok.inj hab) hscans).symm

theorem selectProductsByPrice_range_witness :
    (selectProductsByPrice
        (rangeDriver [product.mk "iphone" 950, product.mk "Galaxy" 990, product.mk "iPad" 500])
        900 1000 World.empty).2 =
        ([product.mk "iphone" 950, product.mk "Galaxy" 990], none) ∧
      [product.mk "iphone" 950, product.mk "Galaxy" 990] =
        [product.mk "iphone" 950, product.mk "Galaxy" 990, product.mk "iPad" 500].filter
          (fun r => (900 : Int) ≤ r.price ∧ r.price ≤ 1000) :=
  ⟨by decide,
    selectProductsByPrice_range
      (rangeDriver [product.mk "iphone" 950, product.mk "Galaxy" 990, product.mk "iPad" 500])
      [product.mk "iphone" 950, product.mk "Galaxy" 990, product.mk "iPad" 500]
      900 1000 World.empty [product.mk "iphone" 950, product.mk "Galaxy" 990] rfl (by decide)⟩

/-- C6: when the point lookup of `selectPrice` matches no row (the row scan reports
`sql.ErrNoRows`), or when preparation or the row scan fails with any error e, the function
returns price 0 together with exactly that error value, unwrapped.  The caller's switch
then takes the not-found branch exactly when e is `sql.ErrNoRows`; every other error is
reported by the generic failure branch and never as not-found. -/
theorem selectPrice_not_found (d : Driver) (productName : String) (w : World) (e : Err)
    (h : d.prepare "select product_price from product where product_name = ?" = some e ∨
      (d.prepare "select product_price from product where product_name = ?" = none ∧
        d.rowScan "select product_price from product where product_name = ?"
          [Param.str productName] = Except.error e)) :
    (selectPrice d productName w).2 = (0, some e) ∧
      (e = Err.ErrNoRows →
        newLog (selectPrice d productName w).1
            (mainPriceSwitch productName (selectPrice d productName w).2.1
              (selectPrice d productName w).2.2 (selectPrice d productName w).1) =
          [LogEntry.printf "Product %s not found in DB" [LogArg.str productName]]) ∧
      (e ≠ Err.ErrNoRows →
        newLog (selectPrice d productName w).1
            (mainPriceSwitch productName (selectPrice d productName w).2.1
              (selectPrice d productName w).2.2 (selectPrice d productName w).1) =
          [LogEntry.printf "Encountered err %s when fetching price from DB"
            [LogArg.err e]]) := by
  have hret : (selectPrice d productName w).2 = (0, some e) := by
    rcases h with hp | ⟨hp, hs⟩
    · simp [selectPrice, hp]
    · simp [selectPrice, hp, hs]
  refine ⟨hret, ?_, ?_⟩
  · intro he
    rw [hret, he]
    simp [mainPriceSwitch, newLog, World.printf]
  · intro he
    rw [hret]
    simp [mainPriceSwitch, newLog, World.printf, he]

theorem selectPrice_not_found_witness :
    (selectPrice noRowsDriver "nokia" World.empty).2 = (0, some Err.ErrNoRows) ∧
      newLog (selectPrice noRowsDriver "nokia" World.empty).1
          (mainPriceSwitch "nokia" (selectPrice noRowsDriver "nokia" World.empty).2.1
            (selectPrice noRowsDriver "nokia" World.empty).2.2
            (selectPrice noRowsDriver "nokia" World.empty).1) =
        [LogEntry.printf "Product %s not found in DB" [LogArg.str "nokia"]] :=
  ⟨(selectPrice_not_found noRowsDriver "nokia" World.empty Err.ErrNoRows
      (Or.inr ⟨rfl, rfl⟩)).1,
    (selectPrice_not_found noRowsDriver "nokia" World.empty Err.ErrNoRows
      (Or.inr ⟨rfl, rfl⟩)).2.1 rfl⟩

/-- C8, as the code has it: every storage-facing function re-raises, and all but the read
paths log.  For `dbConnection`, `createProductTable`, `insert` and `multipleInsert`, every
failing storage step makes the function return that same error, with no retry and no
later storage step (only the deferred `stmt.Close()`), and a log call of the function
carries the error.  `selectPrice` and `selectProductsByPrice` return the failing step's
error in the same way, but log only a preparation failure: once preparation succeeded
their only log line is the entry message, whatever fails afterwards. -/
theorem storage_functions_reraise (d : Driver) (w : World) (p : product)
    (products : List product) (productName : String) (minPrice maxPrice : Int) :
    logsAndReraises w (dbConnection d w).1 (dbConnection d w).2 = true ∧
      logsAndReraises w (createProductTable d w).1 (createProductTable d w).2 = true ∧
      logsAndReraises w (insert d p w).1 (insert d p w).2 = true ∧
      logsAndReraises w (multipleInsert d products w).1 (multipleInsert d products w).2 = true ∧
      (propagates (newSteps w (selectPrice d productName w).1)
          (selectPrice d productName w).2.2 = true ∧
        (∀ e : Err, d.prepare "select product_price from product where product_name = ?" = some e →
          logsFailure (newLog w (selectPrice d productName w).1) e = true) ∧
        (d.prepare "select product_price from product where product_name = ?" = none →
          newLog w (selectPrice d productName w).1 =
            [LogEntry.printf "Getting product price" []])) ∧
      (propagates (newSteps w (selectProductsByPrice d minPrice maxPrice w).1)
          (selectProductsByPrice d minPrice maxPrice w).2.2 = true ∧
        (∀ e : Err, d.prepare "select product_name, product_price from product where product_price >= ? && product_price <= ?;" = some e →
          logsFailure (newLog w (selectProductsByPrice d minPrice maxPrice w).1) e = true) ∧
        (d.prepare "select product_name, product_price from product where product_price >= ? && product_price <= ?;" = none →
          newLog w (selectProductsByPrice d minPrice maxPrice w).1 =
            [LogEntry.printf "Getting products by price" []])) :=
  ⟨dbConnection_logs_and_reraises d w, createProductTable_logs_and_reraises d w,
    insert_logs_and_reraises d p w, multipleInsert_logs_and_reraises d products w,
    selectPrice_propagates d productName w,
    selectProductsByPrice_propagates d minPrice maxPrice w⟩

theorem storage_functions_reraise_witness :
    unscripted.prepare "select product_price from product where product_name = ?" = some (Err.other "unscripted") ∧
      logsFailure (newLog World.empty (selectPrice unscripted "iphone" World.empty).1)
        (Err.other "unscripted") = true ∧
      newLog World.empty (selectProductsByPrice badRowDriver 900 1000 World.empty).1 =
        [LogEntry.printf "Getting products by price" []] :=
  ⟨rfl,
    (storage_functions_reraise unscripted World.empty (product.mk "iphone" 950) []
      "iphone" 900 1000).2.2.2.2.1.2.1 (Err.other "unscripted") rfl,
    (storage_functions_reraise badRowDriver World.empty (product.mk "iphone" 950) []
      "iphone" 900 1000).2.2.2.2.2.2.2 rfl⟩

/-- C8, as the claim states it, fails on `selectPrice`: when the row scan fails on a lost
connection the function returns that error, and the only log line it wrote is its entry
message, so no log call carries the failure. -/
theorem selectPrice_scan_failure_not_logged :
    (selectPrice lostConnectionDriver "iphone" World.empty).2 =
        (0, some (Err.other "invalid connection")) ∧
      newLog World.empty (selectPrice lostConnectionDriver "iphone" World.empty).1 =
        [LogEntry.printf "Getting product price" []] ∧
      logsFailure (newLog World.empty (selectPrice lostConnectionDriver "iphone" World.empty).1)
        (Err.other "invalid connection") = false ∧
      logsAndReraises World.empty (selectPrice lostConnectionDriver "iphone" World.empty).1
        (selectPrice lostConnectionDriver "iphone" World.empty).2.2 = false := by
  decide

end MysqlTutorial
